import Mathlib

/-!
Shallow embedding of the RPi-MCP23S17 driver (src/RPiMCP23S17/MCP23S17.py and
src/RPiMCP23S17/virtual_pin.py): a driver for the MCP23S17 16-bit GPIO
expander on an SPI bus.  Python integers are embedded as Nat (all values
handled by the driver are nonnegative), Python exceptions as an explicit
error type threaded through a state-plus-exceptions monad: an exception
propagates while keeping all state mutations made before the raise, exactly
as in Python.
-/

namespace MCP

/-- Which of the driver's assert statements failed (Python AssertionError).
The source guards each operation with asserts on the pin range, the mode
value and the initialization flag; the tag records which assert raised. -/
inductive AssertTag where
  | pinRange
  | modeValid
  | initialized
deriving DecidableEq, Repr

/-- Errors raised by the driver or its collaborators.
notInitialized models the NotInitialized exception raised by the lock
decorator (RPiMCP23S17.errors is not in the repository sources; modelled
from the spec as a dedicated error). assertionError models a Python
AssertionError from one of the assert statements. transportFault models any
failure raised by the SPI exchange. notImplemented models
NotImplementedError. typeError models a Python TypeError from calling a
method with the wrong number of arguments. -/
inductive Err where
  | notInitialized
  | assertionError (t : AssertTag)
  | transportFault
  | notImplemented
  | typeError
deriving DecidableEq, Repr

/-- Model of the external spidev transport plus the expander chip behind it
(spec section 6): mode is the bus clock-phase/polarity mode; regs is the
register file of the chip, giving the echo behaviour (a read returns the
last value written to that register); failOn says which exchange attempts
(counted by nxfers) raise a transport fault; log records every frame
transmitted; closed records that close was invoked. -/
structure SpiDev where
  mode : Nat
  regs : Nat → Nat
  failOn : Nat → Bool
  nxfers : Nat
  log : List (List Nat)
  closed : Bool

/-- Pointwise register-file update. -/
def regUpdate (regs : Nat → Nat) (r v : Nat) : Nat → Nat :=
  fun a => if a = r then v else regs a

/-- State of one MCP23S17 instance: the device address, the six cached
register bytes, the required SPI mode, the initialization flag and the
transport.  The attribute _spimode is read by _writeRegister and
_readRegister in the source but never assigned there; it is modelled as a
field holding the device's required SPI mode. -/
structure MCP23S17 where
  device_id : Nat
  _GPIOA : Nat
  _GPIOB : Nat
  _IODIRA : Nat
  _IODIRB : Nat
  _GPPUA : Nat
  _GPPUB : Nat
  _spimode : Nat
  isInitialized : Bool
  spi : SpiDev

/-- The driver's effect monad: state passing with Python exception
semantics (an error keeps the state mutated so far). -/
def M (α : Type) : Type := MCP23S17 → Except Err α × MCP23S17

instance : Monad M where
  pure a := fun s => (Except.ok a, s)
  bind x f := fun s =>
    match x s with
    | (Except.ok a, s') => f a s'
    | (Except.error e, s') => (Except.error e, s')

/-- Read the current state (Python: reading attributes of self). -/
def getS : M MCP23S17 := fun s => (Except.ok s, s)

/-- Mutate the state (Python: assigning attributes of self). -/
def modifyS (f : MCP23S17 → MCP23S17) : M Unit := fun s => (Except.ok (), f s)

/-- Raise an exception. -/
def raise (e : Err) : M α := fun s => (Except.error e, s)

/-- Python assert statement: raises AssertionError (tagged) when the
condition is false. -/
def pyAssert (c : Prop) [Decidable c] (t : AssertTag) : M Unit :=
  fun s => if c then (Except.ok (), s) else (Except.error (Err.assertionError t), s)

/-- The statement assert self.isInitialized, used by several methods. -/
def pyAssertInit : M Unit := do
  let s ← getS
  pyAssert (s.isInitialized = true) AssertTag.initialized

/-- Model of spi.xfer2(frame): one bus exchange.  If the transport is set
to fail on this attempt, a transport fault is raised.  Otherwise the frame
is logged and the chip interprets it: a three-byte frame is a command byte,
a register address and a data byte; bit 0 of the command selects read
(response carries the register value in its third byte) or write (the
register file is updated).  Any other frame (such as the one-byte dummy) is
a no-op returning zeroes of the same length. -/
def xfer2 (frame : List Nat) : M (List Nat) := fun s =>
  let spi := s.spi
  if spi.failOn spi.nxfers then
    (Except.error Err.transportFault, { s with spi := { spi with nxfers := spi.nxfers + 1 } })
  else
    let spi' := { spi with nxfers := spi.nxfers + 1, log := spi.log ++ [frame] }
    match frame with
    | [c, r, v] =>
      if c % 2 = 1 then
        (Except.ok [0, 0, spi'.regs r], { s with spi := spi' })
      else
        (Except.ok [0, 0, 0],
         { s with spi := { spi' with regs := regUpdate spi'.regs r v } })
    | other => (Except.ok (other.map fun _ => 0), { s with spi := spi' })

/-- Class constant N_PINS. -/
def N_PINS : Nat := 16

/-- Class constant PULLUP_ENABLED. -/
def PULLUP_ENABLED : Nat := 0

/-- Class constant PULLUP_DISABLED. -/
def PULLUP_DISABLED : Nat := 1

/-- Class constant DIR_INPUT. -/
def DIR_INPUT : Nat := 0

/-- Class constant DIR_OUTPUT. -/
def DIR_OUTPUT : Nat := 1

/-- Class constant LEVEL_LOW. -/
def LEVEL_LOW : Nat := 0

/-- Class constant LEVEL_HIGH. -/
def LEVEL_HIGH : Nat := 1

/-- Register address IODIRA. -/
def MCP23S17_IODIRA : Nat := 0x00

/-- Register address IODIRB. -/
def MCP23S17_IODIRB : Nat := 0x01

/-- Register address IPOLA. -/
def MCP23S17_IPOLA : Nat := 0x02

/-- Register address IPOLB. -/
def MCP23S17_IPOLB : Nat := 0x03

/-- Register address GPIOA. -/
def MCP23S17_GPIOA : Nat := 0x12

/-- Register address GPIOB. -/
def MCP23S17_GPIOB : Nat := 0x13

/-- Register address OLATA. -/
def MCP23S17_OLATA : Nat := 0x14

/-- Register address OLATB. -/
def MCP23S17_OLATB : Nat := 0x15

/-- Register address IOCON. -/
def MCP23S17_IOCON : Nat := 0x0A

/-- Register address GPPUA. -/
def MCP23S17_GPPUA : Nat := 0x0C

/-- Register address GPPUB. -/
def MCP23S17_GPPUB : Nat := 0x0D

/-- IOCON initialization value (IOCON_SEQOP plus IOCON_HAEN). -/
def IOCON_INIT : Nat := 0x28

/-- SPI command opcode for a register write. -/
def MCP23S17_CMD_WRITE : Nat := 0x40

/-- SPI command opcode for a register read. -/
def MCP23S17_CMD_READ : Nat := 0x41

/-- The lock decorator: raises NotInitialized when isInitialized is false,
otherwise runs the body while holding the mutex (mutual exclusion itself
has no effect in this single-threaded semantics). -/
def locked (f : M α) : M α := fun s =>
  if s.isInitialized then f s else (Except.error Err.notInitialized, s)

/-- Method _setSpiMode(mode): if the bus mode differs from the requested
one, switch it and issue a one-byte dummy exchange. -/
def _setSpiMode (mode : Nat) : M Unit := do
  let s ← getS
  if s.spi.mode ≠ mode then
    modifyS (fun t => { t with spi := { t.spi with mode := mode } })
    let _ ← xfer2 [0]
    pure ()
  else
    pure ()

/-- Method _writeRegister(register, value), wrapped by the lock decorator. -/
def _writeRegister (register value : Nat) : M Unit :=
  locked do
    let s ← getS
    let command := MCP23S17_CMD_WRITE ||| (s.device_id <<< 1)
    _setSpiMode s._spimode
    let _ ← xfer2 [command, register, value]
    pure ()

/-- Method _readRegister(register), wrapped by the lock decorator; returns
the third response byte. -/
def _readRegister (register : Nat) : M Nat :=
  locked do
    let s ← getS
    let command := MCP23S17_CMD_READ ||| (s.device_id <<< 1)
    _setSpiMode s._spimode
    let data ← xfer2 [command, register, 0]
    pure (data.getD 2 0)

/-- Method _readRegisterWord(register): two single-byte reads at
consecutive addresses, least-significant byte first. -/
def _readRegisterWord (register : Nat) : M Nat := do
  pyAssertInit
  let b0 ← _readRegister register
  let b1 ← _readRegister (register + 1)
  pure ((b1 <<< 8) ||| b0)

/-- Method _writeRegisterWord(register, data): two single-byte writes at
consecutive addresses, least-significant byte first. -/
def _writeRegisterWord (register data : Nat) : M Unit := do
  pyAssertInit
  _writeRegister register (data &&& 0xFF)
  _writeRegister (register + 1) (data >>> 8)

/-- Method setPullupMode(pin, mode).  The clear branch embeds Python
data &= ~(1 << noshifts) on a nonnegative integer, which is Nat.ldiff
data (1 <<< noshifts). -/
def setPullupMode (pin mode : Nat) : M Unit := do
  pyAssert (pin < 16) AssertTag.pinRange
  pyAssert (mode = PULLUP_ENABLED ∨ mode = PULLUP_DISABLED) AssertTag.modeValid
  pyAssertInit
  let s ← getS
  let register := if pin < 8 then MCP23S17_GPPUA else MCP23S17_GPPUB
  let data0 := if pin < 8 then s._GPPUA else s._GPPUB
  let noshifts := if pin < 8 then pin else pin &&& 0x07
  let data := if mode = PULLUP_ENABLED then data0 ||| (1 <<< noshifts)
              else Nat.ldiff data0 (1 <<< noshifts)
  _writeRegister register data
  if pin < 8 then
    modifyS (fun t => { t with _GPPUA := data })
  else
    modifyS (fun t => { t with _GPPUB := data })

/-- Method setDirection(pin, direction). -/
def setDirection (pin direction : Nat) : M Unit := do
  pyAssert (pin < 16) AssertTag.pinRange
  pyAssert (direction = DIR_INPUT ∨ direction = DIR_OUTPUT) AssertTag.modeValid
  pyAssertInit
  let s ← getS
  let register := if pin < 8 then MCP23S17_IODIRA else MCP23S17_IODIRB
  let data0 := if pin < 8 then s._IODIRA else s._IODIRB
  let noshifts := if pin < 8 then pin else pin &&& 0x07
  let data := if direction = DIR_INPUT then data0 ||| (1 <<< noshifts)
              else Nat.ldiff data0 (1 <<< noshifts)
  _writeRegister register data
  if pin < 8 then
    modifyS (fun t => { t with _IODIRA := data })
  else
    modifyS (fun t => { t with _IODIRB := data })

/-- Method digitalRead(pin): reads the full bank byte from hardware,
refreshes that bank's cache, and extracts the bit at the pin's offset. -/
def digitalRead (pin : Nat) : M Nat := do
  pyAssertInit
  pyAssert (pin < 16) AssertTag.pinRange
  if pin < 8 then
    let v ← _readRegister MCP23S17_GPIOA
    modifyS (fun t => { t with _GPIOA := v })
    let s ← getS
    if s._GPIOA &&& (1 <<< pin) ≠ 0 then pure LEVEL_HIGH else pure LEVEL_LOW
  else
    let v ← _readRegister MCP23S17_GPIOB
    modifyS (fun t => { t with _GPIOB := v })
    let pin2 := pin &&& 0x07
    let s ← getS
    if s._GPIOB &&& (1 <<< pin2) ≠ 0 then pure LEVEL_HIGH else pure LEVEL_LOW

/-- Method digitalWrite(pin, level).  Note the assert order differs from
setDirection: isInitialized is checked first. -/
def digitalWrite (pin level : Nat) : M Unit := do
  pyAssertInit
  pyAssert (pin < 16) AssertTag.pinRange
  pyAssert (level = LEVEL_HIGH ∨ level = LEVEL_LOW) AssertTag.modeValid
  let s ← getS
  let register := if pin < 8 then MCP23S17_GPIOA else MCP23S17_GPIOB
  let data0 := if pin < 8 then s._GPIOA else s._GPIOB
  let noshifts := if pin < 8 then pin else pin &&& 0x07
  let data := if level = LEVEL_HIGH then data0 ||| (1 <<< noshifts)
              else Nat.ldiff data0 (1 <<< noshifts)
  _writeRegister register data
  if pin < 8 then
    modifyS (fun t => { t with _GPIOA := data })
  else
    modifyS (fun t => { t with _GPIOB := data })

/-- Method writeGPIO(data) in the source (renamed writeGpio here): updates
both cached data bytes, then issues the word-wide write. -/
def writeGpio (data : Nat) : M Unit := do
  pyAssertInit
  modifyS (fun s => { s with _GPIOA := data &&& 0xFF, _GPIOB := data >>> 8 })
  _writeRegisterWord MCP23S17_GPIOA data

/-- Method readGPIO() in the source (renamed readGpio here): word-wide
read, refreshes both cached data bytes, returns the 16-bit value. -/
def readGpio : M Nat := do
  pyAssertInit
  let data ← _readRegisterWord MCP23S17_GPIOA
  modifyS (fun s => { s with _GPIOA := data &&& 0xFF, _GPIOB := data >>> 8 })
  pure data

/-- Method setInterrupt(pin, mode): unconditionally raises
NotImplementedError. -/
def setInterrupt (pin mode : Nat) : M Unit := raise Err.notImplemented

/-- Body of the bring-up loop in open(): one iteration for one index. -/
def initPin (index : Nat) : M Unit := do
  setDirection index DIR_INPUT
  setPullupMode index PULLUP_ENABLED

/-- Method open(): _setupGPIO only configures the external auxiliary
reset/interrupt pins (outside this model), then the handle is marked
initialized, the IOCON register is written, and pins 0 through 14 are set
to input with pull-up enabled.  The source loop for index in range(0, 15)
is unrolled into its fifteen iterations (indices 0 through 14). -/
def «open» : M Unit := do
  modifyS (fun s => { s with isInitialized := true })
  _writeRegister MCP23S17_IOCON IOCON_INIT
  initPin 0
  initPin 1
  initPin 2
  initPin 3
  initPin 4
  initPin 5
  initPin 6
  initPin 7
  initPin 8
  initPin 9
  initPin 10
  initPin 11
  initPin 12
  initPin 13
  initPin 14

/-- Method close(): closes the SPI connection and clears the
initialization flag, with no precondition check. -/
def close : M Unit := do
  modifyS (fun s => { s with spi := { s.spi with closed := true } })
  modifyS (fun s => { s with isInitialized := false })

/-- The constructor: caches zeroed, uninitialized.  spimode stands for the
_spimode attribute read by the register primitives. -/
def mkMCP23S17 (spi : SpiDev) (device_id spimode : Nat) : MCP23S17 :=
  { device_id := device_id
    _GPIOA := 0
    _GPIOB := 0
    _IODIRA := 0
    _IODIRB := 0
    _GPPUA := 0
    _GPPUB := 0
    _spimode := spimode
    isInitialized := false
    spi := spi }

/-- A virtual pin handle (src/RPiMCP23S17/virtual_pin.py): in this
state-monad embedding the bound device is the monad state, so the handle
carries only the pin index. -/
structure VirtualPin where
  pin_id : Nat

/-- Method getitem of MCP23S17: d[item] builds VirtualPin(d, item). -/
def getItem (item : Nat) : VirtualPin := { pin_id := item }

/-- The value property getter: returns digitalRead of the bound pin index
(the external assert_input decorator from the gpio package is not
modelled). -/
def VirtualPin.valueGet (p : VirtualPin) : M Nat := digitalRead p.pin_id

/-- The value property setter.  The source body is
self.mcp.digitalWrite(value): digitalWrite requires two arguments
(pin, level) but receives only value, so Python raises TypeError before
any state change or hardware write occurs. -/
def VirtualPin.valueSet (p : VirtualPin) (value : Nat) : M Unit := raise Err.typeError

/-- Closed form of the transport state after one successful register
write issued by _writeRegister on state s: the bus mode ends at the
device's required mode, the register file is updated at the target
address, and the log gains the dummy frame exactly when the mode had to
be switched, followed by the three-byte write frame. -/
def writeSpi (s : MCP23S17) (r v : Nat) : SpiDev :=
  { mode := s._spimode
    regs := regUpdate s.spi.regs r v
    failOn := s.spi.failOn
    nxfers := s.spi.nxfers + (if s.spi.mode = s._spimode then 1 else 2)
    log := s.spi.log ++ (if s.spi.mode = s._spimode then [] else [[0]]) ++
           [[MCP23S17_CMD_WRITE ||| (s.device_id <<< 1), r, v]]
    closed := s.spi.closed }

/-- Closed form of the transport state after one successful register read
issued by _readRegister on state s. -/
def readSpi (s : MCP23S17) (r : Nat) : SpiDev :=
  { mode := s._spimode
    regs := s.spi.regs
    failOn := s.spi.failOn
    nxfers := s.spi.nxfers + (if s.spi.mode = s._spimode then 1 else 2)
    log := s.spi.log ++ (if s.spi.mode = s._spimode then [] else [[0]]) ++
           [[MCP23S17_CMD_READ ||| (s.device_id <<< 1), r, 0]]
    closed := s.spi.closed }

/-- Setting bit off of byte b (Python b |= 1 << off). -/
def setBit (b off : Nat) : Nat := b ||| (1 <<< off)

/-- Clearing bit off of byte b (Python b &= ~(1 << off) on a nonnegative
integer). -/
def clrBit (b off : Nat) : Nat := Nat.ldiff b (1 <<< off)

/-- The six cached register bytes bundled together, for stating that an
operation leaves the whole cache untouched. -/
def caches (s : MCP23S17) : Nat × Nat × Nat × Nat × Nat × Nat :=
  (s._IODIRA, s._IODIRB, s._GPPUA, s._GPPUB, s._GPIOA, s._GPIOB)

/-- A transport in its reset state: mode 0, all registers zero, reads
echo the last written value, no exchange ever fails. -/
def echoSpi : SpiDev :=
  { mode := 0, regs := fun _ => 0, failOn := fun _ => false, nxfers := 0, log := [],
    closed := false }

/-- A freshly constructed handle on the echo transport, device address 0,
required SPI mode 0. -/
def freshDev : MCP23S17 := mkMCP23S17 echoSpi 0 0

/-- The fresh handle after open(). -/
def openedDev : MCP23S17 := («open» freshDev).2

/-- The opened handle after close(). -/
def closedDev : MCP23S17 := (close openedDev).2

/-- A transport whose exchanges all raise a fault. -/
def deadSpi : SpiDev :=
  { mode := 0, regs := fun _ => 0, failOn := fun _ => true, nxfers := 0, log := [],
    closed := false }

/-- An initialized handle sitting on the always-failing transport. -/
def failDev : MCP23S17 := { mkMCP23S17 deadSpi 0 0 with isInitialized := true }

/-- A transport whose first exchange fails and whose later exchanges
succeed. -/
def firstFailSpi : SpiDev :=
  { mode := 0, regs := fun _ => 0, failOn := fun n => n == 0, nxfers := 0, log := [],
    closed := false }

/-- A fresh handle on the transport with one initial failure. -/
def flakyDev : MCP23S17 := mkMCP23S17 firstFailSpi 0 0

/-- A fresh handle on the echo transport whose bank-B direction and
pull-up cache bytes hold arbitrary pre-open values. -/
def freshDevB (b1 b2 : Nat) : MCP23S17 := { freshDev with _IODIRB := b1, _GPPUB := b2 }

/-- An initialized handle whose bus mode (0) differs from its required
SPI mode (1). -/
def modeDev : MCP23S17 := { mkMCP23S17 echoSpi 0 1 with isInitialized := true }

/-- An initialized handle whose bus mode already matches its required SPI
mode. -/
def matchDev : MCP23S17 := { mkMCP23S17 echoSpi 0 0 with isInitialized := true }

/-- An operation succeeds at a state when it returns a value rather than
raising. -/
@[reducible] def succeeds (op : M α) (s : MCP23S17) : Prop := ((op s).1).isOk = true

/-- An operation fails with a not-initialized error at a state: either
the NotInitialized exception raised by the lock decorator or the
AssertionError of an assert isInitialized statement. -/
@[reducible] def notInitErr (op : M α) (s : MCP23S17) : Prop :=
  (op s).1 = Except.error Err.notInitialized ∨
  (op s).1 = Except.error (Err.assertionError AssertTag.initialized)

/-- Unfolding of monadic sequencing applied to a state. -/
theorem bind_apply (x : M α) (f : α → M β) (s : MCP23S17) :
    (x >>= f) s = match x s with
      | (Except.ok a, s') => f a s'
      | (Except.error e, s') => (Except.error e, s') := rfl

/-- Unfolding of pure applied to a state. -/
theorem pure_apply (a : α) (s : MCP23S17) : (pure a : M α) s = (Except.ok a, s) := rfl

/-- The command byte built from the write opcode has bit 0 clear: the
device address occupies bits 1 and 2 and cannot change the read/write
bit. -/
theorem cmd_write_even (d : Nat) : (MCP23S17_CMD_WRITE ||| (d <<< 1)) % 2 = 0 := by
  have h : (MCP23S17_CMD_WRITE ||| (d <<< 1)) &&& 1 = 0 := by
    rw [Nat.and_distrib_right]
    simp [MCP23S17_CMD_WRITE, Nat.and_one_is_mod, Nat.shiftLeft_eq, Nat.mul_mod_left]
  rw [← Nat.and_one_is_mod]
  exact h

/-- The command byte built from the read opcode has bit 0 set. -/
theorem cmd_read_odd (d : Nat) : (MCP23S17_CMD_READ ||| (d <<< 1)) % 2 = 1 := by
  have h : (MCP23S17_CMD_READ ||| (d <<< 1)) &&& 1 = 1 := by
    rw [Nat.and_distrib_right]
    simp [MCP23S17_CMD_READ, Nat.and_one_is_mod, Nat.shiftLeft_eq, Nat.mul_mod_left]
  rw [← Nat.and_one_is_mod]
  exact h

/-- Characterization of _writeRegister on an initialized state whose
transport never fails: it succeeds and only the transport evolves, to
writeSpi s r v; every cached byte is untouched. -/
theorem writeRegister_run (r v : Nat) (s : MCP23S17)
    (hi : s.isInitialized = true) (hf : ∀ n, s.spi.failOn n = false) :
    _writeRegister r v s = (Except.ok (), { s with spi := writeSpi s r v }) := by
  by_cases hm : s.spi.mode = s._spimode
  · simp [_writeRegister, locked, hi, bind_apply, getS, _setSpiMode, modifyS, hm,
      xfer2, hf, writeSpi, pure_apply, cmd_write_even]
  · simp [_writeRegister, locked, hi, bind_apply, getS, _setSpiMode, modifyS, hm,
      xfer2, hf, writeSpi, pure_apply, cmd_write_even]

/-- Characterization of _readRegister on an initialized state whose
transport never fails: it returns the register-file byte at the requested
address and only the transport evolves, to readSpi s r; the register file
itself and every cached byte are untouched. -/
theorem readRegister_run (r : Nat) (s : MCP23S17)
    (hi : s.isInitialized = true) (hf : ∀ n, s.spi.failOn n = false) :
    _readRegister r s = (Except.ok (s.spi.regs r), { s with spi := readSpi s r }) := by
  by_cases hm : s.spi.mode = s._spimode
  · simp [_readRegister, locked, hi, bind_apply, getS, _setSpiMode, modifyS, hm,
      xfer2, hf, readSpi, pure_apply, cmd_read_odd]
  · simp [_readRegister, locked, hi, bind_apply, getS, _setSpiMode, modifyS, hm,
      xfer2, hf, readSpi, pure_apply, cmd_read_odd]

/-- Characterization of setDirection on an initialized state with a
never-failing transport: for pins below 8 it rewrites the cached bank-A
direction byte and hardware register IODIRA at bit offset pin; for pins 8
to 15 it rewrites the cached bank-B byte and IODIRB at bit offset
pin &&& 0x07; DIR_INPUT sets the bit, DIR_OUTPUT clears it. -/
theorem setDirection_run (pin dir : Nat) (s : MCP23S17)
    (hp : pin < 16) (hd : dir = DIR_INPUT ∨ dir = DIR_OUTPUT)
    (hi : s.isInitialized = true) (hf : ∀ n, s.spi.failOn n = false) :
    setDirection pin dir s =
      (Except.ok (),
       { s with
         _IODIRA := if pin < 8 then
             (if dir = DIR_INPUT then setBit s._IODIRA pin else clrBit s._IODIRA pin)
           else s._IODIRA
         _IODIRB := if pin < 8 then s._IODIRB
           else (if dir = DIR_INPUT then setBit s._IODIRB (pin &&& 0x07)
                 else clrBit s._IODIRB (pin &&& 0x07))
         spi := writeSpi s (if pin < 8 then MCP23S17_IODIRA else MCP23S17_IODIRB)
             (if pin < 8 then
                (if dir = DIR_INPUT then setBit s._IODIRA pin else clrBit s._IODIRA pin)
              else (if dir = DIR_INPUT then setBit s._IODIRB (pin &&& 0x07)
                    else clrBit s._IODIRB (pin &&& 0x07))) }) := by
  rcases hd with rfl | rfl <;> by_cases h8 : pin < 8 <;>
    simp [setDirection, pyAssert, pyAssertInit, bind_apply, pure_apply, getS, modifyS,
      hp, hi, h8, writeRegister_run, hf, setBit, clrBit, DIR_INPUT, DIR_OUTPUT]

/-- Characterization of setPullupMode, parallel to setDirection_run with
the GPPU registers: PULLUP_ENABLED sets the bit, PULLUP_DISABLED clears
it. -/
theorem setPullupMode_run (pin mode : Nat) (s : MCP23S17)
    (hp : pin < 16) (hd : mode = PULLUP_ENABLED ∨ mode = PULLUP_DISABLED)
    (hi : s.isInitialized = true) (hf : ∀ n, s.spi.failOn n = false) :
    setPullupMode pin mode s =
      (Except.ok (),
       { s with
         _GPPUA := if pin < 8 then
             (if mode = PULLUP_ENABLED then setBit s._GPPUA pin else clrBit s._GPPUA pin)
           else s._GPPUA
         _GPPUB := if pin < 8 then s._GPPUB
           else (if mode = PULLUP_ENABLED then setBit s._GPPUB (pin &&& 0x07)
                 else clrBit s._GPPUB (pin &&& 0x07))
         spi := writeSpi s (if pin < 8 then MCP23S17_GPPUA else MCP23S17_GPPUB)
             (if pin < 8 then
                (if mode = PULLUP_ENABLED then setBit s._GPPUA pin else clrBit s._GPPUA pin)
              else (if mode = PULLUP_ENABLED then setBit s._GPPUB (pin &&& 0x07)
                    else clrBit s._GPPUB (pin &&& 0x07))) }) := by
  rcases hd with rfl | rfl <;> by_cases h8 : pin < 8 <;>
    simp [setPullupMode, pyAssert, pyAssertInit, bind_apply, pure_apply, getS, modifyS,
      hp, hi, h8, writeRegister_run, hf, setBit, clrBit, PULLUP_ENABLED, PULLUP_DISABLED]

/-- Characterization of digitalWrite, parallel to setDirection_run with
the GPIO data registers: LEVEL_HIGH sets the bit, LEVEL_LOW clears it. -/
theorem digitalWrite_run (pin level : Nat) (s : MCP23S17)
    (hp : pin < 16) (hd : level = LEVEL_HIGH ∨ level = LEVEL_LOW)
    (hi : s.isInitialized = true) (hf : ∀ n, s.spi.failOn n = false) :
    digitalWrite pin level s =
      (Except.ok (),
       { s with
         _GPIOA := if pin < 8 then
             (if level = LEVEL_HIGH then setBit s._GPIOA pin else clrBit s._GPIOA pin)
           else s._GPIOA
         _GPIOB := if pin < 8 then s._GPIOB
           else (if level = LEVEL_HIGH then setBit s._GPIOB (pin &&& 0x07)
                 else clrBit s._GPIOB (pin &&& 0x07))
         spi := writeSpi s (if pin < 8 then MCP23S17_GPIOA else MCP23S17_GPIOB)
             (if pin < 8 then
                (if level = LEVEL_HIGH then setBit s._GPIOA pin else clrBit s._GPIOA pin)
              else (if level = LEVEL_HIGH then setBit s._GPIOB (pin &&& 0x07)
                    else clrBit s._GPIOB (pin &&& 0x07))) }) := by
  rcases hd with rfl | rfl <;> by_cases h8 : pin < 8 <;>
    simp [digitalWrite, pyAssert, pyAssertInit, bind_apply, pure_apply, getS, modifyS,
      hp, hi, h8, writeRegister_run, hf, setBit, clrBit, LEVEL_HIGH, LEVEL_LOW]

/-- Setting a bit makes that bit read back as one. -/
theorem setBit_testBit_self (b off : Nat) : (setBit b off).testBit off = true := by
  simp [setBit, Nat.testBit_or, Nat.shiftLeft_eq, Nat.testBit_two_pow]

/-- Setting a bit leaves every other bit unchanged. -/
theorem setBit_testBit_other (b off j : Nat) (h : j ≠ off) :
    (setBit b off).testBit j = b.testBit j := by
  simp [setBit, Nat.testBit_or, Nat.shiftLeft_eq, Nat.testBit_two_pow,
    decide_eq_false (Ne.symm h)]

/-- Clearing a bit makes that bit read back as zero. -/
theorem clrBit_testBit_self (b off : Nat) : (clrBit b off).testBit off = false := by
  simp [clrBit, Nat.testBit_ldiff, Nat.shiftLeft_eq, Nat.testBit_two_pow]

/-- Clearing a bit leaves every other bit unchanged. -/
theorem clrBit_testBit_other (b off j : Nat) (h : j ≠ off) :
    (clrBit b off).testBit j = b.testBit j := by
  simp [clrBit, Nat.testBit_ldiff, Nat.shiftLeft_eq, Nat.testBit_two_pow,
    decide_eq_false (Ne.symm h)]

/-- Bits of the low-byte mask 0xFF. -/
theorem testBit_255 (i : Nat) : (0xFF : Nat).testBit i = decide (i < 8) := by
  rw [show (0xFF : Nat) = 2 ^ 8 - 1 by norm_num, Nat.testBit_two_pow_sub_one]

/-- Reassembling the high byte shifted left with the low byte recovers the
original word (for every natural number, bitwise). -/
theorem word_recomb (x : Nat) : ((x >>> 8) <<< 8) ||| (x &&& 0xFF) = x := by
  apply Nat.eq_of_testBit_eq
  intro i
  rcases Nat.lt_or_ge i 8 with h | h
  · simp [Nat.testBit_or, Nat.testBit_shiftLeft, Nat.testBit_and, testBit_255,
      h, Nat.not_le.mpr h]
  · simp [Nat.testBit_or, Nat.testBit_shiftLeft, Nat.testBit_shiftRight, Nat.testBit_and,
      testBit_255, h, Nat.not_lt.mpr h, Nat.add_sub_cancel' h]

/-- Characterization of digitalRead on an initialized state with a
never-failing transport: the full bank byte is read from the hardware
register file, the corresponding cache byte is refreshed with it, and the
returned level is the bit at the pin's offset. -/
theorem digitalRead_run (pin : Nat) (s : MCP23S17)
    (hp : pin < 16) (hi : s.isInitialized = true) (hf : ∀ n, s.spi.failOn n = false) :
    digitalRead pin s =
      (Except.ok (if pin < 8 then
          (if s.spi.regs MCP23S17_GPIOA &&& (1 <<< pin) ≠ 0 then LEVEL_HIGH else LEVEL_LOW)
        else
          (if s.spi.regs MCP23S17_GPIOB &&& (1 <<< (pin &&& 0x07)) ≠ 0 then LEVEL_HIGH
           else LEVEL_LOW)),
       { s with
         _GPIOA := if pin < 8 then s.spi.regs MCP23S17_GPIOA else s._GPIOA
         _GPIOB := if pin < 8 then s._GPIOB else s.spi.regs MCP23S17_GPIOB
         spi := readSpi s (if pin < 8 then MCP23S17_GPIOA else MCP23S17_GPIOB) }) := by
  by_cases h8 : pin < 8 <;>
    simp [digitalRead, pyAssert, pyAssertInit, bind_apply, pure_apply, getS, modifyS,
      hp, hi, h8, readRegister_run, hf] <;>
    split <;> simp [pure_apply]

/-- Behaviour of writeGPIO on an initialized state with a never-failing
transport, stated through its observable projections: it succeeds, both
cached data bytes take the split halves of the argument, the register
file is updated at GPIOA and GPIOB, and the initialization flag and
failure schedule are untouched. -/
theorem writeGpio_run (x : Nat) (s : MCP23S17)
    (hi : s.isInitialized = true) (hf : ∀ n, s.spi.failOn n = false) :
    (writeGpio x s).1 = Except.ok () ∧
    (writeGpio x s).2._GPIOA = x &&& 0xFF ∧
    (writeGpio x s).2._GPIOB = x >>> 8 ∧
    (writeGpio x s).2.spi.regs
      = regUpdate (regUpdate s.spi.regs MCP23S17_GPIOA (x &&& 0xFF)) MCP23S17_GPIOB (x >>> 8) ∧
    (writeGpio x s).2.isInitialized = true ∧
    (writeGpio x s).2.spi.failOn = s.spi.failOn := by
  simp [writeGpio, _writeRegisterWord, pyAssert, pyAssertInit, bind_apply, pure_apply,
    getS, modifyS, hi, hf, writeRegister_run, writeSpi, MCP23S17_GPIOA, MCP23S17_GPIOB]

/-- Behaviour of readGPIO on an initialized state with a never-failing
transport: it returns the two data-register bytes of the register file
combined as (high <<< 8) ||| low and refreshes both cached data bytes
from that value. -/
theorem readGpio_run (s : MCP23S17)
    (hi : s.isInitialized = true) (hf : ∀ n, s.spi.failOn n = false) :
    (readGpio s).1
      = Except.ok ((s.spi.regs MCP23S17_GPIOB <<< 8) ||| s.spi.regs MCP23S17_GPIOA) ∧
    (readGpio s).2._GPIOA
      = ((s.spi.regs MCP23S17_GPIOB <<< 8) ||| s.spi.regs MCP23S17_GPIOA) &&& 0xFF ∧
    (readGpio s).2._GPIOB
      = ((s.spi.regs MCP23S17_GPIOB <<< 8) ||| s.spi.regs MCP23S17_GPIOA) >>> 8 := by
  simp [readGpio, _readRegisterWord, pyAssert, pyAssertInit, bind_apply, pure_apply,
    getS, modifyS, hi, hf, readRegister_run, readSpi, MCP23S17_GPIOA, MCP23S17_GPIOB]

/-- Word-wide register write succeeds on an initialized state with a
never-failing transport. -/
theorem writeRegisterWord_ok (r x : Nat) (s : MCP23S17)
    (hi : s.isInitialized = true) (hf : ∀ n, s.spi.failOn n = false) :
    (_writeRegisterWord r x s).1 = Except.ok () := by
  simp [_writeRegisterWord, pyAssert, pyAssertInit, bind_apply, pure_apply, getS,
    modifyS, hi, hf, writeRegister_run, writeSpi]

/-- Word-wide register read succeeds on an initialized state with a
never-failing transport. -/
theorem readRegisterWord_ok (r : Nat) (s : MCP23S17)
    (hi : s.isInitialized = true) (hf : ∀ n, s.spi.failOn n = false) :
    (_readRegisterWord r s).1
      = Except.ok ((s.spi.regs (r + 1) <<< 8) ||| s.spi.regs r) := by
  simp [_readRegisterWord, pyAssert, pyAssertInit, bind_apply, pure_apply, getS,
    modifyS, hi, hf, readRegister_run, readSpi]

/-- Characterization of close: with no precondition it marks the
transport closed and the handle uninitialized, leaving everything else in
place. -/
theorem close_run (s : MCP23S17) :
    close s
      = (Except.ok (), { s with isInitialized := false,
                                spi := { s.spi with closed := true } }) := rfl

/-- setDirection on an uninitialized handle fails on the initialization
assert and leaves the state untouched. -/
theorem setDirection_uninit (pin dir : Nat) (s : MCP23S17)
    (hp : pin < 16) (hd : dir = DIR_INPUT ∨ dir = DIR_OUTPUT)
    (h : s.isInitialized = false) :
    setDirection pin dir s = (Except.error (Err.assertionError AssertTag.initialized), s) := by
  rcases hd with rfl | rfl <;>
    simp [setDirection, pyAssert, pyAssertInit, bind_apply, pure_apply, getS, hp, h,
      DIR_INPUT, DIR_OUTPUT]

/-- setPullupMode on an uninitialized handle fails on the initialization
assert. -/
theorem setPullupMode_uninit (pin mode : Nat) (s : MCP23S17)
    (hp : pin < 16) (hd : mode = PULLUP_ENABLED ∨ mode = PULLUP_DISABLED)
    (h : s.isInitialized = false) :
    setPullupMode pin mode s
      = (Except.error (Err.assertionError AssertTag.initialized), s) := by
  rcases hd with rfl | rfl <;>
    simp [setPullupMode, pyAssert, pyAssertInit, bind_apply, pure_apply, getS, hp, h,
      PULLUP_ENABLED, PULLUP_DISABLED]

/-- digitalWrite checks initialization first, so it fails on it
regardless of the other arguments. -/
theorem digitalWrite_uninit (pin level : Nat) (s : MCP23S17)
    (h : s.isInitialized = false) :
    digitalWrite pin level s
      = (Except.error (Err.assertionError AssertTag.initialized), s) := by
  simp [digitalWrite, pyAssert, pyAssertInit, bind_apply, pure_apply, getS, h]

/-- digitalRead checks initialization first. -/
theorem digitalRead_uninit (pin : Nat) (s : MCP23S17)
    (h : s.isInitialized = false) :
    digitalRead pin s = (Except.error (Err.assertionError AssertTag.initialized), s) := by
  simp [digitalRead, pyAssert, pyAssertInit, bind_apply, pure_apply, getS, h]

/-- writeGPIO checks initialization first. -/
theorem writeGpio_uninit (x : Nat) (s : MCP23S17) (h : s.isInitialized = false) :
    writeGpio x s = (Except.error (Err.assertionError AssertTag.initialized), s) := by
  simp [writeGpio, pyAssert, pyAssertInit, bind_apply, pure_apply, getS, h]

/-- readGPIO checks initialization first. -/
theorem readGpio_uninit (s : MCP23S17) (h : s.isInitialized = false) :
    readGpio s = (Except.error (Err.assertionError AssertTag.initialized), s) := by
  simp [readGpio, pyAssert, pyAssertInit, bind_apply, pure_apply, getS, h]

/-- The word-wide write asserts initialization first. -/
theorem writeRegisterWord_uninit (r x : Nat) (s : MCP23S17)
    (h : s.isInitialized = false) :
    _writeRegisterWord r x s
      = (Except.error (Err.assertionError AssertTag.initialized), s) := by
  simp [_writeRegisterWord, pyAssert, pyAssertInit, bind_apply, pure_apply, getS, h]

/-- The word-wide read asserts initialization first. -/
theorem readRegisterWord_uninit (r : Nat) (s : MCP23S17)
    (h : s.isInitialized = false) :
    _readRegisterWord r s
      = (Except.error (Err.assertionError AssertTag.initialized), s) := by
  simp [_readRegisterWord, pyAssert, pyAssertInit, bind_apply, pure_apply, getS, h]

/-- The single-byte write raises NotInitialized through the lock
decorator when the handle is not initialized. -/
theorem writeRegister_uninit (r v : Nat) (s : MCP23S17)
    (h : s.isInitialized = false) :
    _writeRegister r v s = (Except.error Err.notInitialized, s) := by
  simp [_writeRegister, locked, h]

/-- The single-byte read raises NotInitialized through the lock decorator
when the handle is not initialized. -/
theorem readRegister_uninit (r : Nat) (s : MCP23S17)
    (h : s.isInitialized = false) :
    _readRegister r s = (Except.error Err.notInitialized, s) := by
  simp [_readRegister, locked, h]

/-- Characterization of _writeRegister when every transport exchange
fails: the fault propagates, and apart from the bus mode and the exchange
counter nothing changes; in particular no cached byte and no register
byte changes. -/
theorem writeRegister_fail (r v : Nat) (s : MCP23S17)
    (hi : s.isInitialized = true) (ha : ∀ n, s.spi.failOn n = true) :
    _writeRegister r v s
      = (Except.error Err.transportFault,
         { s with spi := { s.spi with mode := s._spimode,
                                      nxfers := s.spi.nxfers + 1 } }) := by
  by_cases hm : s.spi.mode = s._spimode <;>
    simp [_writeRegister, locked, hi, bind_apply, pure_apply, getS, _setSpiMode,
      modifyS, hm, xfer2, ha]

/-- setDirection under a transport that fails every exchange: the fault
propagates and every cached register byte is left exactly as it was. -/
theorem setDirection_fail (pin dir : Nat) (s : MCP23S17)
    (hp : pin < 16) (hd : dir = DIR_INPUT ∨ dir = DIR_OUTPUT)
    (hi : s.isInitialized = true) (ha : ∀ n, s.spi.failOn n = true) :
    setDirection pin dir s
      = (Except.error Err.transportFault,
         { s with spi := { s.spi with mode := s._spimode,
                                      nxfers := s.spi.nxfers + 1 } }) := by
  rcases hd with rfl | rfl <;> by_cases h8 : pin < 8 <;>
    simp [setDirection, pyAssert, pyAssertInit, bind_apply, pure_apply, getS, modifyS,
      hp, hi, h8, writeRegister_fail, ha, DIR_INPUT, DIR_OUTPUT]

/-- setPullupMode under a transport that fails every exchange: the fault
propagates and every cached register byte is left exactly as it was. -/
theorem setPullupMode_fail (pin mode : Nat) (s : MCP23S17)
    (hp : pin < 16) (hd : mode = PULLUP_ENABLED ∨ mode = PULLUP_DISABLED)
    (hi : s.isInitialized = true) (ha : ∀ n, s.spi.failOn n = true) :
    setPullupMode pin mode s
      = (Except.error Err.transportFault,
         { s with spi := { s.spi with mode := s._spimode,
                                      nxfers := s.spi.nxfers + 1 } }) := by
  rcases hd with rfl | rfl <;> by_cases h8 : pin < 8 <;>
    simp [setPullupMode, pyAssert, pyAssertInit, bind_apply, pure_apply, getS, modifyS,
      hp, hi, h8, writeRegister_fail, ha, PULLUP_ENABLED, PULLUP_DISABLED]

/-- digitalWrite under a transport that fails every exchange: the fault
propagates and every cached register byte is left exactly as it was. -/
theorem digitalWrite_fail (pin level : Nat) (s : MCP23S17)
    (hp : pin < 16) (hd : level = LEVEL_HIGH ∨ level = LEVEL_LOW)
    (hi : s.isInitialized = true) (ha : ∀ n, s.spi.failOn n = true) :
    digitalWrite pin level s
      = (Except.error Err.transportFault,
         { s with spi := { s.spi with mode := s._spimode,
                                      nxfers := s.spi.nxfers + 1 } }) := by
  rcases hd with rfl | rfl <;> by_cases h8 : pin < 8 <;>
    simp [digitalWrite, pyAssert, pyAssertInit, bind_apply, pure_apply, getS, modifyS,
      hp, hi, h8, writeRegister_fail, ha, LEVEL_HIGH, LEVEL_LOW]

/-- C10: close() performs no initialization check: called in any state,
including on a handle that was never opened, it returns normally (in
particular it never raises a not-initialized error), invokes the
transport's close, and leaves the handle uninitialized; nothing else of
the state changes. -/
theorem C10_close_unconditional (s : MCP23S17) :
    close s = (Except.ok (), { s with isInitialized := false,
                                      spi := { s.spi with closed := true } }) := rfl

/-- C9: open() marks the handle initialized before the control-register
write and the bring-up sequence, so when the very first bring-up
transaction (the IOCON write) fails, open() raises the transport fault
but leaves the handle initialized with no bring-up performed (exactly one
exchange was attempted), and a subsequent pin operation is accepted (it
succeeds once the transport recovers) instead of being rejected with a
not-initialized error. -/
theorem C9_open_partial_failure :
    («open» flakyDev).1 = Except.error Err.transportFault ∧
    («open» flakyDev).2.isInitialized = true ∧
    («open» flakyDev).2.spi.nxfers = 1 ∧
    («open» flakyDev).2._IODIRA = 0 ∧
    (setDirection 5 DIR_INPUT («open» flakyDev).2).1 = Except.ok () ∧
    ¬ notInitErr (setDirection 5 DIR_INPUT) («open» flakyDev).2 := by
  refine ⟨rfl, rfl, rfl, rfl, rfl, ?_⟩
  intro h
  have hok : (setDirection 5 DIR_INPUT («open» flakyDev).2).1 = Except.ok () := rfl
  rcases h with h | h <;> rw [hok] at h <;> exact Except.noConfusion h

/-- C7: the virtual-pin value setter does not perform the digitalWrite of
its bound pin index: the source calls digitalWrite with a single argument
(the level, passed in the pin position, with no level argument), which in
Python raises TypeError before any state change, whereas the claimed
equivalent digitalWrite(3, LEVEL_HIGH) succeeds and sets bit 3 of the
cached bank-A data byte.  The claim is refuted by the code at the
concrete input d[3].value = LEVEL_HIGH. -/
theorem C7_virtual_pin_setter_bug :
    (VirtualPin.valueSet (getItem 3) LEVEL_HIGH openedDev).1 = Except.error Err.typeError ∧
    (VirtualPin.valueSet (getItem 3) LEVEL_HIGH openedDev).2 = openedDev ∧
    (digitalWrite 3 LEVEL_HIGH openedDev).1 = Except.ok () ∧
    (digitalWrite 3 LEVEL_HIGH openedDev).2._GPIOA = setBit openedDev._GPIOA 3 ∧
    (digitalWrite 3 LEVEL_HIGH openedDev).2.spi.regs MCP23S17_GPIOA
      = setBit openedDev._GPIOA 3 := by
  exact ⟨rfl, rfl, rfl, rfl, rfl⟩

/-- Bits of the seven-bit mask 127. -/
theorem testBit_127 (i : Nat) : (127 : Nat).testBit i = decide (i < 7) := by
  rw [show (127 : Nat) = 2 ^ 7 - 1 by norm_num, Nat.testBit_two_pow_sub_one]

/-- Folding the or-chain produced by the seven bank-B bring-up steps. -/
theorem orChain (b : Nat) :
    ((((((b ||| 1) ||| 2) ||| 4) ||| 8) ||| 16) ||| 32) ||| 64 = b ||| 127 := by
  rw [Nat.or_assoc, Nat.or_assoc, Nat.or_assoc, Nat.or_assoc, Nat.or_assoc, Nat.or_assoc,
    show (1 ||| (2 ||| (4 ||| (8 ||| (16 ||| (32 ||| 64)))))) = (127 : Nat) by decide]

set_option maxHeartbeats 4000000 in
/-- Evaluation of open() on the parametrized fresh handle: it succeeds. -/
theorem open_freshB_ok (b1 b2 : Nat) : («open» (freshDevB b1 b2)).1 = Except.ok () := by
  with_unfolding_all rfl

set_option maxHeartbeats 4000000 in
/-- Evaluation of open(): the bank-A direction byte accumulates bits 0
through 7 onto its zero initial value. -/
theorem open_freshB_dirA (b1 b2 : Nat) :
    («open» (freshDevB b1 b2)).2._IODIRA
      = (((((((0 ||| 1) ||| 2) ||| 4) ||| 8) ||| 16) ||| 32) ||| 64) ||| 128 := by
  with_unfolding_all rfl

set_option maxHeartbeats 4000000 in
/-- Evaluation of open(): the bank-A pull-up byte accumulates bits 0
through 7 onto its zero initial value. -/
theorem open_freshB_puA (b1 b2 : Nat) :
    («open» (freshDevB b1 b2)).2._GPPUA
      = (((((((0 ||| 1) ||| 2) ||| 4) ||| 8) ||| 16) ||| 32) ||| 64) ||| 128 := by
  with_unfolding_all rfl

set_option maxHeartbeats 4000000 in
/-- Evaluation of open(): the bank-B direction byte accumulates bits 0
through 6 onto its pre-open value. -/
theorem open_freshB_dirB (b1 b2 : Nat) :
    («open» (freshDevB b1 b2)).2._IODIRB
      = ((((((b1 ||| 1) ||| 2) ||| 4) ||| 8) ||| 16) ||| 32) ||| 64 := by
  with_unfolding_all rfl

set_option maxHeartbeats 4000000 in
/-- Evaluation of open(): the bank-B pull-up byte accumulates bits 0
through 6 onto its pre-open value. -/
theorem open_freshB_puB (b1 b2 : Nat) :
    («open» (freshDevB b1 b2)).2._GPPUB
      = ((((((b2 ||| 1) ||| 2) ||| 4) ||| 8) ||| 16) ||| 32) ||| 64 := by
  with_unfolding_all rfl

/-- C4: open() initializes pins 0 through 14 and never touches pin 15:
starting from a fresh handle whose bank-B direction and pull-up bytes
hold arbitrary pre-open values, open() succeeds, sets every bit of the
bank-A direction and pull-up bytes, sets bits 0 through 6 of the bank-B
bytes, and leaves bit 7 of both bank-B bytes exactly at its pre-open
value (on a literally fresh handle that value is zero). -/
theorem C4_open_bringup (b1 b2 : Nat) :
    («open» (freshDevB b1 b2)).1 = Except.ok () ∧
    («open» (freshDevB b1 b2)).2._IODIRA = 0xFF ∧
    («open» (freshDevB b1 b2)).2._GPPUA = 0xFF ∧
    (∀ j, j < 7 → ((«open» (freshDevB b1 b2)).2._IODIRB).testBit j = true ∧
                  ((«open» (freshDevB b1 b2)).2._GPPUB).testBit j = true) ∧
    ((«open» (freshDevB b1 b2)).2._IODIRB).testBit 7 = b1.testBit 7 ∧
    ((«open» (freshDevB b1 b2)).2._GPPUB).testBit 7 = b2.testBit 7 := by
  have hB := open_freshB_dirB b1 b2
  have hG := open_freshB_puB b1 b2
  rw [orChain] at hB
  rw [orChain] at hG
  refine ⟨open_freshB_ok b1 b2, ?_, ?_, ?_, ?_, ?_⟩
  · rw [open_freshB_dirA b1 b2]
    decide
  · rw [open_freshB_puA b1 b2]
    decide
  · intro j hj
    rw [hB, hG]
    constructor <;> simp [Nat.testBit_or, testBit_127, hj]
  · rw [hB]
    simp [Nat.testBit_or, testBit_127]
  · rw [hG]
    simp [Nat.testBit_or, testBit_127]

/-- C3 counterexample: writeGPIO updates both cached data bytes before
the hardware write, so on a transport whose exchange raises, the
transaction fails yet the cache has been modified: starting from an
initialized handle with zeroed cache, writeGPIO(0xABCD) raises the
transport fault and still leaves GPIOA = 0xCD and GPIOB = 0xAB in the
cache.  This refutes the claim that every operation that issues a
hardware write leaves the cache unmodified when the byte transaction
fails. -/
theorem C3_counterexample :
    (writeGpio 0xABCD failDev).1 = Except.error Err.transportFault ∧
    failDev._GPIOA = 0 ∧ failDev._GPIOB = 0 ∧
    (writeGpio 0xABCD failDev).2._GPIOA = 0xCD ∧
    (writeGpio 0xABCD failDev).2._GPIOB = 0xAB := ⟨rfl, rfl, rfl, rfl, rfl⟩

/-- C3 amended: for the bit-level mutators setDirection, setPullupMode
and digitalWrite a failed byte transaction leaves all six cached register
bytes unmodified (the cache is written only after the hardware write
returns), while writeGPIO updates its two cached data bytes before
issuing the hardware writes, so a failed transaction leaves the new
values in the cache. -/
theorem C3_cache_on_failure (pin dir mode level x : Nat) (s : MCP23S17)
    (hp : pin < 16)
    (hd : dir = DIR_INPUT ∨ dir = DIR_OUTPUT)
    (hm : mode = PULLUP_ENABLED ∨ mode = PULLUP_DISABLED)
    (hl : level = LEVEL_HIGH ∨ level = LEVEL_LOW)
    (hi : s.isInitialized = true) (ha : ∀ n, s.spi.failOn n = true) :
    ((setDirection pin dir s).1 = Except.error Err.transportFault ∧
      caches (setDirection pin dir s).2 = caches s) ∧
    ((setPullupMode pin mode s).1 = Except.error Err.transportFault ∧
      caches (setPullupMode pin mode s).2 = caches s) ∧
    ((digitalWrite pin level s).1 = Except.error Err.transportFault ∧
      caches (digitalWrite pin level s).2 = caches s) ∧
    ((writeGpio x s).1 = Except.error Err.transportFault ∧
      (writeGpio x s).2._GPIOA = x &&& 0xFF ∧
      (writeGpio x s).2._GPIOB = x >>> 8) := by
  refine ⟨⟨?_, ?_⟩, ⟨?_, ?_⟩, ⟨?_, ?_⟩, ⟨?_, ?_, ?_⟩⟩
  · rw [setDirection_fail pin dir s hp hd hi ha]
  · rw [setDirection_fail pin dir s hp hd hi ha]
    simp [caches]
  · rw [setPullupMode_fail pin mode s hp hm hi ha]
  · rw [setPullupMode_fail pin mode s hp hm hi ha]
    simp [caches]
  · rw [digitalWrite_fail pin level s hp hl hi ha]
  · rw [digitalWrite_fail pin level s hp hl hi ha]
    simp [caches]
  · simp [writeGpio, _writeRegisterWord, pyAssert, pyAssertInit, bind_apply, pure_apply,
      getS, modifyS, hi, ha, writeRegister_fail]
  · simp [writeGpio, _writeRegisterWord, pyAssert, pyAssertInit, bind_apply, pure_apply,
      getS, modifyS, hi, ha, writeRegister_fail]
  · simp [writeGpio, _writeRegisterWord, pyAssert, pyAssertInit, bind_apply, pure_apply,
      getS, modifyS, hi, ha, writeRegister_fail]

/-- Witness for the amended C3 theorem at a concrete input. -/
theorem C3_witness :
    (setDirection 3 DIR_INPUT failDev).1 = Except.error Err.transportFault ∧
    caches (setDirection 3 DIR_INPUT failDev).2 = caches failDev :=
  (C3_cache_on_failure 3 DIR_INPUT PULLUP_ENABLED LEVEL_HIGH 0 failDev (by decide)
    (Or.inl rfl) (Or.inl rfl) (Or.inl rfl) rfl (fun _ => rfl)).1

/-- Witness for the C4 theorem at a concrete input. -/
theorem C4_witness :
    ((«open» (freshDevB 0x80 0x80)).2._IODIRB).testBit 3 = true ∧
    ((«open» (freshDevB 0x80 0x80)).2._IODIRB).testBit 7 = (0x80 : Nat).testBit 7 := by
  obtain ⟨-, -, -, h4, h5, -⟩ := C4_open_bringup 0x80 0x80
  exact ⟨(h4 3 (by decide)).1, h5⟩

/-- C8: before each single-byte register transaction, if the bus clock
mode differs from this device's required mode, the driver switches the
mode (the transport ends at the required mode) and transmits a one-byte
dummy frame before the real three-byte frame; if the mode already
matches, exactly the three-byte frame is transmitted, with no dummy.
Stated for _writeRegister and for _readRegister through the transport
log. -/
theorem C8_mode_settle (r v : Nat) (s : MCP23S17)
    (hi : s.isInitialized = true) (hf : ∀ n, s.spi.failOn n = false) :
    ((s.spi.mode ≠ s._spimode →
        (_writeRegister r v s).2.spi.log
          = s.spi.log ++ [[0], [MCP23S17_CMD_WRITE ||| (s.device_id <<< 1), r, v]] ∧
        (_writeRegister r v s).2.spi.mode = s._spimode) ∧
     (s.spi.mode = s._spimode →
        (_writeRegister r v s).2.spi.log
          = s.spi.log ++ [[MCP23S17_CMD_WRITE ||| (s.device_id <<< 1), r, v]])) ∧
    ((s.spi.mode ≠ s._spimode →
        (_readRegister r s).2.spi.log
          = s.spi.log ++ [[0], [MCP23S17_CMD_READ ||| (s.device_id <<< 1), r, 0]] ∧
        (_readRegister r s).2.spi.mode = s._spimode) ∧
     (s.spi.mode = s._spimode →
        (_readRegister r s).2.spi.log
          = s.spi.log ++ [[MCP23S17_CMD_READ ||| (s.device_id <<< 1), r, 0]])) := by
  rw [writeRegister_run r v s hi hf, readRegister_run r s hi hf]
  refine ⟨⟨fun hm => ⟨?_, ?_⟩, fun hm => ?_⟩, ⟨fun hm => ⟨?_, ?_⟩, fun hm => ?_⟩⟩ <;>
    simp [writeSpi, readSpi, hm]

/-- Witness for the C8 theorem: on a device whose required mode 1
differs from the bus mode 0, the dummy frame precedes the write frame;
on a device whose modes agree, only the write frame is transmitted. -/
theorem C8_witness :
    (_writeRegister 0x0A 0x28 modeDev).2.spi.log = [[0], [0x40, 0x0A, 0x28]] ∧
    (_writeRegister 0x0A 0x28 matchDev).2.spi.log = [[0x40, 0x0A, 0x28]] := by
  constructor
  · have h := (((C8_mode_settle 0x0A 0x28 modeDev rfl (fun _ => rfl)).1).1 (by decide)).1
    simpa using h
  · have h := ((C8_mode_settle 0x0A 0x28 matchDev rfl (fun _ => rfl)).1).2 rfl
    simpa using h

/-- C6: for every pin and every prior cache state, digitalWrite with
LEVEL_HIGH sets exactly the bit at the pin's offset in the cached byte of
the pin's bank and LEVEL_LOW clears exactly that bit; every other bit of
that byte, and the whole cached byte of the other bank, keep their prior
values; the byte written to the hardware register of the pin's bank is
exactly the new cached byte, and no other hardware register changes. -/
theorem C6_digitalWrite_frame (pin level : Nat) (s : MCP23S17)
    (hp : pin < 16) (hl : level = LEVEL_HIGH ∨ level = LEVEL_LOW)
    (hi : s.isInitialized = true) (hf : ∀ n, s.spi.failOn n = false) :
    ((if pin < 8 then (digitalWrite pin level s).2._GPIOA
      else (digitalWrite pin level s).2._GPIOB).testBit
        (if pin < 8 then pin else pin &&& 0x07) = decide (level = LEVEL_HIGH)) ∧
    (∀ j, j ≠ (if pin < 8 then pin else pin &&& 0x07) →
      (if pin < 8 then (digitalWrite pin level s).2._GPIOA
       else (digitalWrite pin level s).2._GPIOB).testBit j
        = (if pin < 8 then s._GPIOA else s._GPIOB).testBit j) ∧
    (if pin < 8 then (digitalWrite pin level s).2._GPIOB = s._GPIOB
     else (digitalWrite pin level s).2._GPIOA = s._GPIOA) ∧
    ((digitalWrite pin level s).2.spi.regs
        (if pin < 8 then MCP23S17_GPIOA else MCP23S17_GPIOB)
      = (if pin < 8 then (digitalWrite pin level s).2._GPIOA
         else (digitalWrite pin level s).2._GPIOB)) ∧
    (∀ a, a ≠ (if pin < 8 then MCP23S17_GPIOA else MCP23S17_GPIOB) →
      (digitalWrite pin level s).2.spi.regs a = s.spi.regs a) := by
  have hrun := digitalWrite_run pin level s hp hl hi hf
  refine ⟨?_, ?_, ?_, ?_, ?_⟩
  · rw [hrun]
    rcases hl with rfl | rfl <;> by_cases h8 : pin < 8 <;>
      simp [h8, setBit_testBit_self, clrBit_testBit_self, LEVEL_HIGH, LEVEL_LOW]
  · intro j hj
    rw [hrun]
    rcases hl with rfl | rfl <;> by_cases h8 : pin < 8 <;> simp [h8] at hj ⊢ <;>
      simp [setBit_testBit_other _ _ _ hj, clrBit_testBit_other _ _ _ hj,
        LEVEL_HIGH, LEVEL_LOW]
  · rw [hrun]
    by_cases h8 : pin < 8 <;> simp [h8]
  · rw [hrun]
    rcases hl with rfl | rfl <;> by_cases h8 : pin < 8 <;>
      simp [h8, writeSpi, regUpdate, LEVEL_HIGH, LEVEL_LOW]
  · intro a ha
    rw [hrun]
    by_cases h8 : pin < 8 <;> simp [h8] at ha ⊢ <;>
      simp [writeSpi, regUpdate, ha]

/-- Witness for the C6 theorem at a concrete input: writing pin 11 high
on the opened device flips only bit 3 of the cached bank-B byte. -/
theorem C6_witness :
    ((digitalWrite 11 LEVEL_HIGH openedDev).2._GPIOB).testBit (11 &&& 0x07) = true ∧
    (digitalWrite 11 LEVEL_HIGH openedDev).2._GPIOA = openedDev._GPIOA := by
  obtain ⟨h1, -, h3, -, -⟩ := C6_digitalWrite_frame 11 LEVEL_HIGH openedDev
    (by decide) (Or.inl rfl) rfl (fun _ => rfl)
  constructor
  · simpa using h1
  · simpa using h3

/-- C1: for pins 0 to 7 the three bit-level mutators write the bank-A
register of their family (IODIRA, GPPUA, GPIOA) at bit offset pin, and
for pins 8 to 15 the bank-B register (IODIRB, GPPUB, GPIOB) at bit offset
pin &&& 0x07: for each family the hardware register file changes exactly
at the mapped address, to the prior bank byte with the mapped bit set or
cleared, and at no other address.  The bank and offset expressions are
the same for the direction, pull-up and data families. -/
theorem C1_bank_offset_mapping (pin dir mode level : Nat) (s : MCP23S17)
    (hp : pin < 16)
    (hd : dir = DIR_INPUT ∨ dir = DIR_OUTPUT)
    (hm : mode = PULLUP_ENABLED ∨ mode = PULLUP_DISABLED)
    (hl : level = LEVEL_HIGH ∨ level = LEVEL_LOW)
    (hi : s.isInitialized = true) (hf : ∀ n, s.spi.failOn n = false) :
    ((setDirection pin dir s).2.spi.regs
        (if pin < 8 then MCP23S17_IODIRA else MCP23S17_IODIRB)
      = (if dir = DIR_INPUT
         then setBit (if pin < 8 then s._IODIRA else s._IODIRB)
                (if pin < 8 then pin else pin &&& 0x07)
         else clrBit (if pin < 8 then s._IODIRA else s._IODIRB)
                (if pin < 8 then pin else pin &&& 0x07)) ∧
     ∀ a, a ≠ (if pin < 8 then MCP23S17_IODIRA else MCP23S17_IODIRB) →
       (setDirection pin dir s).2.spi.regs a = s.spi.regs a) ∧
    ((setPullupMode pin mode s).2.spi.regs
        (if pin < 8 then MCP23S17_GPPUA else MCP23S17_GPPUB)
      = (if mode = PULLUP_ENABLED
         then setBit (if pin < 8 then s._GPPUA else s._GPPUB)
                (if pin < 8 then pin else pin &&& 0x07)
         else clrBit (if pin < 8 then s._GPPUA else s._GPPUB)
                (if pin < 8 then pin else pin &&& 0x07)) ∧
     ∀ a, a ≠ (if pin < 8 then MCP23S17_GPPUA else MCP23S17_GPPUB) →
       (setPullupMode pin mode s).2.spi.regs a = s.spi.regs a) ∧
    ((digitalWrite pin level s).2.spi.regs
        (if pin < 8 then MCP23S17_GPIOA else MCP23S17_GPIOB)
      = (if level = LEVEL_HIGH
         then setBit (if pin < 8 then s._GPIOA else s._GPIOB)
                (if pin < 8 then pin else pin &&& 0x07)
         else clrBit (if pin < 8 then s._GPIOA else s._GPIOB)
                (if pin < 8 then pin else pin &&& 0x07)) ∧
     ∀ a, a ≠ (if pin < 8 then MCP23S17_GPIOA else MCP23S17_GPIOB) →
       (digitalWrite pin level s).2.spi.regs a = s.spi.regs a) := by
  have h1 := setDirection_run pin dir s hp hd hi hf
  have h2 := setPullupMode_run pin mode s hp hm hi hf
  have h3 := digitalWrite_run pin level s hp hl hi hf
  refine ⟨⟨?_, ?_⟩, ⟨?_, ?_⟩, ⟨?_, ?_⟩⟩
  · rw [h1]
    rcases hd with rfl | rfl <;> by_cases h8 : pin < 8 <;>
      simp [h8, writeSpi, regUpdate, DIR_INPUT, DIR_OUTPUT]
  · intro a ha
    rw [h1]
    by_cases h8 : pin < 8 <;> simp [h8] at ha ⊢ <;> simp [writeSpi, regUpdate, ha]
  · rw [h2]
    rcases hm with rfl | rfl <;> by_cases h8 : pin < 8 <;>
      simp [h8, writeSpi, regUpdate, PULLUP_ENABLED, PULLUP_DISABLED]
  · intro a ha
    rw [h2]
    by_cases h8 : pin < 8 <;> simp [h8] at ha ⊢ <;> simp [writeSpi, regUpdate, ha]
  · rw [h3]
    rcases hl with rfl | rfl <;> by_cases h8 : pin < 8 <;>
      simp [h8, writeSpi, regUpdate, LEVEL_HIGH, LEVEL_LOW]
  · intro a ha
    rw [h3]
    by_cases h8 : pin < 8 <;> simp [h8] at ha ⊢ <;> simp [writeSpi, regUpdate, ha]

/-- Witness for the C1 theorem at a concrete input: pin 9 is in bank B
with offset 1, so setDirection(9, DIR_INPUT) on the opened device writes
IODIRB with bit 1 set on the prior bank byte. -/
theorem C1_witness :
    (setDirection 9 DIR_INPUT openedDev).2.spi.regs MCP23S17_IODIRB
      = setBit openedDev._IODIRB (9 &&& 0x07) ∧
    (setDirection 9 DIR_INPUT openedDev).2.spi.regs MCP23S17_GPIOA
      = openedDev.spi.regs MCP23S17_GPIOA := by
  obtain ⟨⟨h1, h2⟩, -, -⟩ := C1_bank_offset_mapping 9 DIR_INPUT PULLUP_ENABLED LEVEL_HIGH
    openedDev (by decide) (Or.inl rfl) (Or.inl rfl) (Or.inl rfl) rfl (fun _ => rfl)
  constructor
  · simpa using h1
  · exact h2 MCP23S17_GPIOA (by decide)

/-- C2: on an initialized handle whose transport echoes written register
values on subsequent reads and never fails (the transport model built
into xfer2, run sequentially with no interleaving), writeGPIO(x)
immediately followed by readGPIO() returns x for every 16-bit x, and
after the pair the cached data bytes hold GPIOA = x &&& 0xFF and
GPIOB = x >>> 8. -/
theorem C2_roundtrip (x : Nat) (s : MCP23S17) (hx : x < 65536)
    (hi : s.isInitialized = true) (hf : ∀ n, s.spi.failOn n = false) :
    ((writeGpio x >>= fun _ => readGpio) s).1 = Except.ok x ∧
    ((writeGpio x >>= fun _ => readGpio) s).2._GPIOA = x &&& 0xFF ∧
    ((writeGpio x >>= fun _ => readGpio) s).2._GPIOB = x >>> 8 := by
  obtain ⟨w1, w2, w3, w4, w5, w6⟩ := writeGpio_run x s hi hf
  have hf2 : ∀ n, (writeGpio x s).2.spi.failOn n = false := by
    intro n
    rw [w6]
    exact hf n
  obtain ⟨r1, r2, r3⟩ := readGpio_run (writeGpio x s).2 w5 hf2
  have hpair : writeGpio x s = (Except.ok (), (writeGpio x s).2) := by
    have h : writeGpio x s = ((writeGpio x s).1, (writeGpio x s).2) := rfl
    rw [h, w1]
  have hbind : (writeGpio x >>= fun _ => readGpio) s = readGpio (writeGpio x s).2 := by
    rw [bind_apply, hpair]
  have hregs13 : (writeGpio x s).2.spi.regs MCP23S17_GPIOB = x >>> 8 := by
    rw [w4]
    simp [regUpdate]
  have hregs12 : (writeGpio x s).2.spi.regs MCP23S17_GPIOA = x &&& 0xFF := by
    rw [w4]
    simp [regUpdate, MCP23S17_GPIOA, MCP23S17_GPIOB]
  refine ⟨?_, ?_, ?_⟩
  · rw [hbind, r1, hregs13, hregs12, word_recomb]
  · rw [hbind, r2, hregs13, hregs12, word_recomb]
  · rw [hbind, r3, hregs13, hregs12, word_recomb]

/-- Witness for the C2 theorem at a concrete input. -/
theorem C2_witness :
    ((writeGpio 0xBEEF >>= fun _ => readGpio) openedDev).1 = Except.ok 0xBEEF :=
  (C2_roundtrip 0xBEEF openedDev (by decide) rfl (fun _ => rfl)).1

/-- On any uninitialized state, each of the ten implemented pin-, port-
and register-level operations fails with a not-initialized error. -/
theorem allOps_notInit (pin dir mode level reg v x : Nat) (s : MCP23S17)
    (hp : pin < 16)
    (hd : dir = DIR_INPUT ∨ dir = DIR_OUTPUT)
    (hm : mode = PULLUP_ENABLED ∨ mode = PULLUP_DISABLED)
    (hl : level = LEVEL_HIGH ∨ level = LEVEL_LOW)
    (h : s.isInitialized = false) :
    notInitErr (setDirection pin dir) s ∧ notInitErr (setPullupMode pin mode) s ∧
    notInitErr (digitalWrite pin level) s ∧ notInitErr (digitalRead pin) s ∧
    notInitErr (writeGpio x) s ∧ notInitErr readGpio s ∧
    notInitErr (_writeRegister reg v) s ∧ notInitErr (_readRegister reg) s ∧
    notInitErr (_writeRegisterWord reg x) s ∧ notInitErr (_readRegisterWord reg) s := by
  refine ⟨Or.inr ?_, Or.inr ?_, Or.inr ?_, Or.inr ?_, Or.inr ?_, Or.inr ?_,
          Or.inl ?_, Or.inl ?_, Or.inr ?_, Or.inr ?_⟩
  · rw [setDirection_uninit pin dir s hp hd h]
  · rw [setPullupMode_uninit pin mode s hp hm h]
  · rw [digitalWrite_uninit pin level s h]
  · rw [digitalRead_uninit pin s h]
  · rw [writeGpio_uninit x s h]
  · rw [readGpio_uninit s h]
  · rw [writeRegister_uninit reg v s h]
  · rw [readRegister_uninit reg s h]
  · rw [writeRegisterWord_uninit reg x s h]
  · rw [readRegisterWord_uninit reg s h]

/-- On any initialized state with a never-failing transport, each of the
ten implemented operations succeeds. -/
theorem allOps_ok (pin dir mode level reg v x : Nat) (s : MCP23S17)
    (hp : pin < 16)
    (hd : dir = DIR_INPUT ∨ dir = DIR_OUTPUT)
    (hm : mode = PULLUP_ENABLED ∨ mode = PULLUP_DISABLED)
    (hl : level = LEVEL_HIGH ∨ level = LEVEL_LOW)
    (hi : s.isInitialized = true) (hf : ∀ n, s.spi.failOn n = false) :
    succeeds (setDirection pin dir) s ∧ succeeds (setPullupMode pin mode) s ∧
    succeeds (digitalWrite pin level) s ∧ succeeds (digitalRead pin) s ∧
    succeeds (writeGpio x) s ∧ succeeds readGpio s ∧
    succeeds (_writeRegister reg v) s ∧ succeeds (_readRegister reg) s ∧
    succeeds (_writeRegisterWord reg x) s ∧ succeeds (_readRegisterWord reg) s := by
  refine ⟨?_, ?_, ?_, ?_, ?_, ?_, ?_, ?_, ?_, ?_⟩
  · show ((setDirection pin dir s).1).isOk = true
    rw [setDirection_run pin dir s hp hd hi hf]
    rfl
  · show ((setPullupMode pin mode s).1).isOk = true
    rw [setPullupMode_run pin mode s hp hm hi hf]
    rfl
  · show ((digitalWrite pin level s).1).isOk = true
    rw [digitalWrite_run pin level s hp hl hi hf]
    rfl
  · show ((digitalRead pin s).1).isOk = true
    rw [digitalRead_run pin s hp hi hf]
    rfl
  · show ((writeGpio x s).1).isOk = true
    rw [(writeGpio_run x s hi hf).1]
    rfl
  · show ((readGpio s).1).isOk = true
    rw [(readGpio_run s hi hf).1]
    rfl
  · show ((_writeRegister reg v s).1).isOk = true
    rw [writeRegister_run reg v s hi hf]
    rfl
  · show ((_readRegister reg s).1).isOk = true
    rw [readRegister_run reg s hi hf]
    rfl
  · show ((_writeRegisterWord reg x s).1).isOk = true
    rw [writeRegisterWord_ok reg x s hi hf]
    rfl
  · show ((_readRegisterWord reg s).1).isOk = true
    rw [readRegisterWord_ok reg s hi hf]
    rfl

/-- C5: on the fresh handle every implemented pin-, port- and
register-level operation (with valid arguments) fails with a
not-initialized error; after open() the same operations succeed; after a
subsequent close() they fail again with a not-initialized error.
setInterrupt is excluded: it raises NotImplementedError unconditionally
in every state. -/
theorem C5_lifecycle (pin dir mode level reg v x : Nat)
    (hp : pin < 16)
    (hd : dir = DIR_INPUT ∨ dir = DIR_OUTPUT)
    (hm : mode = PULLUP_ENABLED ∨ mode = PULLUP_DISABLED)
    (hl : level = LEVEL_HIGH ∨ level = LEVEL_LOW) :
    (notInitErr (setDirection pin dir) freshDev ∧
     notInitErr (setPullupMode pin mode) freshDev ∧
     notInitErr (digitalWrite pin level) freshDev ∧
     notInitErr (digitalRead pin) freshDev ∧
     notInitErr (writeGpio x) freshDev ∧ notInitErr readGpio freshDev ∧
     notInitErr (_writeRegister reg v) freshDev ∧
     notInitErr (_readRegister reg) freshDev ∧
     notInitErr (_writeRegisterWord reg x) freshDev ∧
     notInitErr (_readRegisterWord reg) freshDev) ∧
    (succeeds (setDirection pin dir) openedDev ∧
     succeeds (setPullupMode pin mode) openedDev ∧
     succeeds (digitalWrite pin level) openedDev ∧
     succeeds (digitalRead pin) openedDev ∧
     succeeds (writeGpio x) openedDev ∧ succeeds readGpio openedDev ∧
     succeeds (_writeRegister reg v) openedDev ∧
     succeeds (_readRegister reg) openedDev ∧
     succeeds (_writeRegisterWord reg x) openedDev ∧
     succeeds (_readRegisterWord reg) openedDev) ∧
    (notInitErr (setDirection pin dir) closedDev ∧
     notInitErr (setPullupMode pin mode) closedDev ∧
     notInitErr (digitalWrite pin level) closedDev ∧
     notInitErr (digitalRead pin) closedDev ∧
     notInitErr (writeGpio x) closedDev ∧ notInitErr readGpio closedDev ∧
     notInitErr (_writeRegister reg v) closedDev ∧
     notInitErr (_readRegister reg) closedDev ∧
     notInitErr (_writeRegisterWord reg x) closedDev ∧
     notInitErr (_readRegisterWord reg) closedDev) :=
  ⟨allOps_notInit pin dir mode level reg v x freshDev hp hd hm hl rfl,
   allOps_ok pin dir mode level reg v x openedDev hp hd hm hl rfl (fun _ => rfl),
   allOps_notInit pin dir mode level reg v x closedDev hp hd hm hl rfl⟩

/-- Witness for the C5 theorem at a concrete input. -/
theorem C5_witness :
    succeeds (setDirection 3 DIR_INPUT) openedDev ∧
    notInitErr (setDirection 3 DIR_INPUT) freshDev ∧
    notInitErr (setDirection 3 DIR_INPUT) closedDev := by
  obtain ⟨h1, h2, h3⟩ := C5_lifecycle 3 DIR_INPUT PULLUP_ENABLED LEVEL_HIGH 0 0 0
    (by decide) (Or.inl rfl) (Or.inl rfl) (Or.inl rfl)
  exact ⟨h2.1, h1.1, h3.1⟩

end MCP
